import Mathlib

/-!
Shallow embedding of the marketplace Flask application (`app.py`, `forms.py`):
SQLAlchemy models become Lean structures, the database session becomes an
explicit `DB` value threaded through the route handlers, the image upload
folder becomes an explicit list of stored filenames, and each route handler
becomes a pure function from the request data and current state to an
outcome plus the successor state.

Conventions:
* prices are SQL `Float` columns written and compared but never computed
  with; they are embedded as exact rationals (`Rat`), which preserves every
  order comparison the source performs;
* `order_date` (`db.func.now()`) is embedded as a `Nat` timestamp supplied
  by the caller, monotone time being external to the program;
* `uuid.uuid4().hex` in `save_picture` is embedded as an explicit
  `random_hex` argument (the nondeterminism made a parameter);
* `werkzeug.generate_password_hash` is an external library routine: the
  embedding keeps only that some string derived from the password is
  stored, never the plaintext semantics of the hash;
* `form.validate_on_submit()` is `submitted && <validators>`, where the
  validators are translated from `forms.py` field by field.
-/

/-- `class User(db.Model)`: id, unique username, unique email,
password_hash, role (a free 10-char string column; the source comment says
`'buyer' or 'seller'`). -/
structure User where
  id : Nat
  username : String
  email : String
  password_hash : String
  role : String
deriving Repr, DecidableEq

/-- `class Product(db.Model)`. `specifications` is nullable
(`TextAreaField` submits the empty string when blank). -/
structure Product where
  id : Nat
  name : String
  description : String
  specifications : String
  condition : String
  price : Rat
  image_filename : String
  seller_id : Nat
deriving Repr, DecidableEq

/-- `class ShippingAddress(db.Model)`. -/
structure ShippingAddress where
  id : Nat
  user_id : Nat
  recipient_name : String
  phone_number : String
  address_line1 : String
  address_line2 : String
  city : String
  state : String
  zip_code : String
  country : String
deriving Repr, DecidableEq

/-- `class Order(db.Model)`: the column default `status='pending'` and the
`db.func.now()` default for `order_date` are filled in at creation. -/
structure Order where
  id : Nat
  product_id : Nat
  buyer_id : Nat
  order_date : Nat
  status : String
  shipping_method : String
  shipping_address_id : Nat
  total_price : Rat
deriving Repr, DecidableEq

/-- The SQLAlchemy session/database: the four tables plus the
autoincrement counters that assign primary keys. -/
structure DB where
  users : List User
  products : List Product
  addresses : List ShippingAddress
  orders : List Order
  next_user_id : Nat
  next_product_id : Nat
  next_order_id : Nat
deriving Repr, DecidableEq

/-- `Product.query.get(pid)` / `get_or_404`: primary-key lookup. -/
def productFind (db : DB) (pid : Nat) : Option Product :=
  db.products.find? (fun p => p.id == pid)

/-- `ShippingAddress.query.get_or_404(aid)`. -/
def addressFind (db : DB) (aid : Nat) : Option ShippingAddress :=
  db.addresses.find? (fun a => a.id == aid)

/-- `User.query.filter_by(username=...).first()`. -/
def userFindByUsername (db : DB) (username : String) : Option User :=
  db.users.find? (fun u => u.username == username)

/-- `User.query.filter_by(email=...).first()`. -/
def userFindByEmail (db : DB) (email : String) : Option User :=
  db.users.find? (fun u => u.email == email)

/-- The choices of `OrderForm.shipping_method` in `forms.py`. -/
def shippingMethodChoices : List String := ["郵寄", "宅配", "超商取貨"]

/-- `OrderForm.validate()`: `SelectField` pre-validation (the submitted
value must be one of the choices) plus `DataRequired`. -/
def orderFormValidate (shipping_method : String) : Bool :=
  shippingMethodChoices.contains shipping_method && shipping_method != ""

/-- Outcome of the `/confirm_order/<product_id>/<shipping_address_id>`
handler, one constructor per `return` in the source. -/
inductive ConfirmOutcome where
  /-- `get_or_404` aborted with 404. -/
  | notFound
  /-- flash『您無權購買此商品』and `redirect(url_for('home'))`. -/
  | denyHome
  /-- flash『無權使用此收件地址』and redirect to
  `shipping_address(product_id)`. -/
  | denyAddress (product_id : Nat)
  /-- render `confirm_order.html` (GET, or invalid form). -/
  | renderForm
  /-- order committed, redirect to `my_orders`. -/
  | created
deriving Repr, DecidableEq

/-- The `confirm_order` route handler (`app.py` lines 295-322).
`submitted` is whether the request POSTs the form; `now` is the clock value
`db.func.now()` fills into `order_date`. -/
def confirmOrder (db : DB) (current : User) (product_id shipping_address_id : Nat)
    (submitted : Bool) (shipping_method : String) (now : Nat) :
    ConfirmOutcome × DB :=
  match productFind db product_id with
  | none => (ConfirmOutcome.notFound, db)
  | some product =>
    match addressFind db shipping_address_id with
    | none => (ConfirmOutcome.notFound, db)
    | some addr =>
      if current.role != "buyer" || current.id == product.seller_id then
        (ConfirmOutcome.denyHome, db)
      else if addr.user_id != current.id then
        (ConfirmOutcome.denyAddress product.id, db)
      else if submitted && orderFormValidate shipping_method then
        let new_order : Order :=
          { id := db.next_order_id
            product_id := product.id
            buyer_id := current.id
            order_date := now
            status := "pending"
            shipping_method := shipping_method
            shipping_address_id := addr.id
            total_price := product.price }
        (ConfirmOutcome.created,
          { db with
              orders := db.orders ++ [new_order]
              next_order_id := db.next_order_id + 1 })
      else
        (ConfirmOutcome.renderForm, db)

/-- Stand-in for werkzeug's `generate_password_hash`; the program only ever
stores its result, so only its application matters to the embedding. -/
def generatePasswordHash (password : String) : String :=
  "pbkdf2:" ++ password

/-- Outcome of the `/register` handler's POST branch. -/
inductive RegisterOutcome where
  /-- flash『Username already exists...』, redirect back to `register`. -/
  | usernameTaken
  /-- flash『Email already registered...』, redirect back to `register`. -/
  | emailTaken
  /-- account committed, redirect to `login`. -/
  | created
deriving Repr, DecidableEq

/-- The POST branch of the `register` route handler (`app.py` lines
140-166) for an unauthenticated visitor; `role` is
`request.form.get('role', 'buyer')`, so `none` means the field was absent
from the form. -/
def register (db : DB) (username email password : String) (role : Option String) :
    RegisterOutcome × DB :=
  let role := role.getD "buyer"
  match userFindByUsername db username with
  | some _ => (RegisterOutcome.usernameTaken, db)
  | none =>
    match userFindByEmail db email with
    | some _ => (RegisterOutcome.emailTaken, db)
    | none =>
      let new_user : User :=
        { id := db.next_user_id
          username := username
          email := email
          password_hash := generatePasswordHash password
          role := role }
      (RegisterOutcome.created,
        { db with
            users := db.users ++ [new_user]
            next_user_id := db.next_user_id + 1 })

/-- The choices of `ProductForm.condition` in `forms.py`. -/
def conditionChoices : List String := ["全新", "九成新", "八成新", "有使用痕跡", "二手"]

/-- `FileAllowed(['jpg', 'png', 'jpeg'], ...)` on `ProductForm.image`:
the lowercased filename must end in one of the allowed extensions. -/
def fileAllowedJpgPngJpeg (filename : String) : Bool :=
  [".jpg", ".png", ".jpeg"].any (fun e => (filename.toLower).endsWith e)

/-- The data a `ProductForm` submission carries; `image` is the original
filename of the uploaded file, `none` when no file was chosen (the
`FileField` is optional). -/
structure ProductFormData where
  name : String
  description : String
  specifications : String
  condition : String
  price : Rat
  image : Option String
deriving Repr, DecidableEq

/-- `ProductForm.validate()`: `DataRequired` on name/description,
`SelectField` choice check on condition, `DataRequired` plus
`NumberRange(min=0.01)` on price (WTForms' `DataRequired` also rejects the
falsy float `0.0`, which `NumberRange` already excludes), `FileAllowed` on
the optional image. -/
def productFormValidate (f : ProductFormData) : Bool :=
  f.name != "" && f.description != "" &&
  conditionChoices.contains f.condition &&
  decide (mkRat 1 100 ≤ f.price) &&
  (match f.image with
   | none => true
   | some filename => fileAllowedJpgPngJpeg filename)

/-- `os.path.splitext(...)[1]`: the extension of a filename, the final dot
included ("" when there is no dot). Leading-dot filenames, which Python
treats specially, do not occur in the program. -/
def splitextExt (filename : String) : String :=
  let parts := filename.splitOn "."
  if parts.length ≥ 2 then "." ++ parts.getLast! else ""

/-- `os.remove` in the flat upload folder, modelled on the folder's list of
filenames (a real folder holds each name at most once). -/
def fsRemove (fs : List String) (filename : String) : List String :=
  fs.filter (fun f => f != filename)

/-- `save_picture(image_file)` (`app.py` lines 132-138): a fresh name
`uuid4().hex + ext` is stored in the upload folder; the hex is an explicit
argument. Returns the stored filename and the new folder contents. -/
def savePicture (fs : List String) (random_hex : String) (orig_filename : String) :
    String × List String :=
  let picture_fn := random_hex ++ splitextExt orig_filename
  (picture_fn, fs ++ [picture_fn])

/-- Outcome of the product CRUD handlers, one constructor per `return`. -/
inductive ProductOutcome where
  /-- `get_or_404` aborted with 404. -/
  | notFound
  /-- permission flash and `redirect(url_for('home'))`. -/
  | denyHome
  /-- render the form template (GET, or invalid form). -/
  | renderForm
  /-- committed, success flash, redirect home. -/
  | success
deriving Repr, DecidableEq

/-- The `create_product` route handler (`app.py` lines 99-125). -/
def createProduct (db : DB) (fs : List String) (current : User)
    (submitted : Bool) (form : ProductFormData) (random_hex : String) :
    ProductOutcome × DB × List String :=
  if current.role != "seller" then (ProductOutcome.denyHome, db, fs)
  else if submitted && productFormValidate form then
    let pictureAndFs :=
      match form.image with
      | some img => savePicture fs random_hex img
      | none => ("default.jpg", fs)
    let product : Product :=
      { id := db.next_product_id
        name := form.name
        description := form.description
        specifications := form.specifications
        condition := form.condition
        price := form.price
        image_filename := pictureAndFs.1
        seller_id := current.id }
    (ProductOutcome.success,
      { db with
          products := db.products ++ [product]
          next_product_id := db.next_product_id + 1 },
      pictureAndFs.2)
  else (ProductOutcome.renderForm, db, fs)

/-- The `update_product` route handler (`app.py` lines 168-200): on a valid
submission the old picture is deleted (when a new one is uploaded and the
old one is not the placeholder), the new one saved, and the found row's
name/description/specifications/condition/price rewritten in place. -/
def updateProduct (db : DB) (fs : List String) (current : User) (product_id : Nat)
    (submitted : Bool) (form : ProductFormData) (random_hex : String) :
    ProductOutcome × DB × List String :=
  match productFind db product_id with
  | none => (ProductOutcome.notFound, db, fs)
  | some product =>
    if product.seller_id != current.id then (ProductOutcome.denyHome, db, fs)
    else if submitted && productFormValidate form then
      let pictureAndFs :=
        match form.image with
        | some img =>
          let fs₀ :=
            if product.image_filename != "default.jpg" then
              fsRemove fs product.image_filename
            else fs
          savePicture fs₀ random_hex img
        | none => (product.image_filename, fs)
      let updated : Product :=
        { product with
            name := form.name
            description := form.description
            specifications := form.specifications
            condition := form.condition
            price := form.price
            image_filename := pictureAndFs.1 }
      (ProductOutcome.success,
        { db with
            products := db.products.map (fun q => if q.id == product_id then updated else q) },
        pictureAndFs.2)
    else (ProductOutcome.renderForm, db, fs)

/-- The `delete_product` route handler (`app.py` lines 202-216): the stored
image file is removed when it is not the placeholder (`os.remove` guarded
by `os.path.exists`, a no-op on an absent file), then the row deleted. -/
def deleteProduct (db : DB) (fs : List String) (current : User) (product_id : Nat) :
    ProductOutcome × DB × List String :=
  match productFind db product_id with
  | none => (ProductOutcome.notFound, db, fs)
  | some product =>
    if product.seller_id != current.id then (ProductOutcome.denyHome, db, fs)
    else
      let fs' :=
        if product.image_filename != "default.jpg" then
          fsRemove fs product.image_filename
        else fs
      (ProductOutcome.success,
        { db with products := db.products.filter (fun q => q.id != product_id) },
        fs')

/-- Outcome of the `/my_orders` handler. -/
inductive OrdersOutcome where
  /-- flash『您沒有權限查看此頁面』, redirect home. -/
  | denyHome
  /-- render `my_orders.html` with the listed orders. -/
  | page (orders : List Order)
deriving Repr, DecidableEq

/-- The SQL comparator of `order_by(Order.order_date.desc())`. -/
def orderDateDesc (a b : Order) : Bool :=
  decide (b.order_date ≤ a.order_date)

/-- The `my_orders` route handler (`app.py` lines 339-346):
`Order.query.filter_by(buyer_id=...).order_by(Order.order_date.desc()).all()`. -/
def myOrders (db : DB) (current : User) : OrdersOutcome :=
  if current.role != "buyer" then OrdersOutcome.denyHome
  else OrdersOutcome.page
    ((db.orders.filter (fun o => o.buyer_id == current.id)).mergeSort orderDateDesc)

/-- A found product's primary key matches the looked-up key. -/
theorem productFind_eq_id {db : DB} {pid : Nat} {p : Product}
    (h : productFind db pid = some p) : p.id = pid := by
  unfold productFind at h
  have h' := List.find?_some h
  simpa using h'

/-- A found address's primary key matches the looked-up key. -/
theorem addressFind_eq_id {db : DB} {aid : Nat} {a : ShippingAddress}
    (h : addressFind db aid = some a) : a.id = aid := by
  unfold addressFind at h
  have h' := List.find?_some h
  simpa using h'

/-- Product lookup ignores the orders table and the order counter. -/
theorem productFind_update_orders (db : DB) (os : List Order) (n pid : Nat) :
    productFind { db with orders := os, next_order_id := n } pid = productFind db pid := rfl

/-- Address lookup ignores the orders table and the order counter. -/
theorem addressFind_update_orders (db : DB) (os : List Order) (n aid : Nat) :
    addressFind { db with orders := os, next_order_id := n } aid = addressFind db aid := rfl

/-- One order satisfies the self-purchase invariant: the buyer is not the
seller of the referenced product (vacuous when the product is gone). -/
def orderNotSelfPurchase (db : DB) (o : Order) : Bool :=
  match productFind db o.product_id with
  | none => true
  | some p => o.buyer_id != p.seller_id

/-- Spec §3 invariant `buyer_id ≠ product.seller_id`, over the whole store. -/
def noSelfPurchase (db : DB) : Bool :=
  db.orders.all (orderNotSelfPurchase db)

/-- One order satisfies the address-ownership invariant:
`shipping_address.user_id == buyer_id` (vacuous when the address is gone). -/
def orderAddressOwned (db : DB) (o : Order) : Bool :=
  match addressFind db o.shipping_address_id with
  | none => true
  | some a => a.user_id == o.buyer_id

/-- Spec §3 invariant `shipping_address.user_id == buyer_id`, over the
whole store. -/
def addressesOwnedByBuyer (db : DB) : Bool :=
  db.orders.all (orderAddressOwned db)

/-- The order row the success branch of `confirm_order` commits. -/
def mkConfirmedOrder (db : DB) (current : User) (p : Product) (a : ShippingAddress)
    (m : String) (now : Nat) : Order :=
  { id := db.next_order_id
    product_id := p.id
    buyer_id := current.id
    order_date := now
    status := "pending"
    shipping_method := m
    shipping_address_id := a.id
    total_price := p.price }

/-- When every guard passes and the form validates, `confirm_order`
commits exactly one new order row and bumps the order counter. -/
theorem confirmOrder_success_eq (db : DB) (current : User) (pid aid : Nat)
    (m : String) (now : Nat) (p : Product) (a : ShippingAddress)
    (hp : productFind db pid = some p) (ha : addressFind db aid = some a)
    (hrole : current.role = "buyer") (hns : current.id ≠ p.seller_id)
    (hown : a.user_id = current.id) (hm : orderFormValidate m = true) :
    confirmOrder db current pid aid true m now =
      (ConfirmOutcome.created,
        { db with
            orders := db.orders ++ [mkConfirmedOrder db current p a m now]
            next_order_id := db.next_order_id + 1 }) := by
  have h1 : (current.role != "buyer" || current.id == p.seller_id) = false := by
    simp [hrole, hns]
  have h2 : (a.user_id != current.id) = false := by simp [hown]
  unfold confirmOrder
  simp [hp, ha, h1, h2, hm, mkConfirmedOrder]

/-- When the guard of `confirm_order` trips on role or self-purchase, the
handler denies and the state is untouched. -/
theorem confirmOrder_deny_home_eq (db : DB) (current : User) (pid aid : Nat)
    (submitted : Bool) (m : String) (now : Nat) (p : Product) (a : ShippingAddress)
    (hp : productFind db pid = some p) (ha : addressFind db aid = some a)
    (hguard : (current.role != "buyer" || current.id == p.seller_id) = true) :
    confirmOrder db current pid aid submitted m now = (ConfirmOutcome.denyHome, db) := by
  unfold confirmOrder
  simp [hp, ha, hguard]

/-- When the role/self-purchase guard passes but the address belongs to a
different user, `confirm_order` denies back to the address step, state
untouched. -/
theorem confirmOrder_deny_address_eq (db : DB) (current : User) (pid aid : Nat)
    (submitted : Bool) (m : String) (now : Nat) (p : Product) (a : ShippingAddress)
    (hp : productFind db pid = some p) (ha : addressFind db aid = some a)
    (hguard : (current.role != "buyer" || current.id == p.seller_id) = false)
    (haddr : a.user_id ≠ current.id) :
    confirmOrder db current pid aid submitted m now =
      (ConfirmOutcome.denyAddress p.id, db) := by
  unfold confirmOrder
  simp [hp, ha, hguard, haddr]

/-- `confirm_order` either leaves the database untouched or commits exactly
the one new order of the success branch, with every guard recorded. -/
theorem confirmOrder_cases (db : DB) (current : User) (pid aid : Nat)
    (submitted : Bool) (m : String) (now : Nat) :
    (confirmOrder db current pid aid submitted m now).2 = db ∨
    ∃ p a, productFind db pid = some p ∧ addressFind db aid = some a ∧
      (current.role != "buyer" || current.id == p.seller_id) = false ∧
      a.user_id = current.id ∧
      confirmOrder db current pid aid submitted m now =
        (ConfirmOutcome.created,
          { db with
              orders := db.orders ++ [mkConfirmedOrder db current p a m now]
              next_order_id := db.next_order_id + 1 }) := by
  unfold confirmOrder
  cases hp : productFind db pid with
  | none => left; rfl
  | some p =>
    cases ha : addressFind db aid with
    | none => left; rfl
    | some a =>
      by_cases h1 : (current.role != "buyer" || current.id == p.seller_id) = true
      · left; simp [h1]
      · have h1' := eq_false_of_ne_true h1
        by_cases h2 : (a.user_id != current.id) = true
        · left; simp [h1', h2]
        · have h2' := eq_false_of_ne_true h2
          have h2'' : a.user_id = current.id := by simpa using h2'
          by_cases h3 : (submitted && orderFormValidate m) = true
          · right
            exact ⟨p, a, rfl, rfl, h1', h2'', by simp [h1', h2', h3, mkConfirmedOrder]⟩
          · left
            have h3' := eq_false_of_ne_true h3
            simp [h1', h2', h3']

/-- Appending an order that itself satisfies the self-purchase invariant
preserves the invariant (product lookups ignore the orders table). -/
theorem noSelfPurchase_append (db : DB) (o : Order) (n : Nat)
    (hinv : noSelfPurchase db = true)
    (ho : orderNotSelfPurchase db o = true) :
    noSelfPurchase { db with orders := db.orders ++ [o], next_order_id := n } = true := by
  unfold noSelfPurchase at *
  show (db.orders ++ [o]).all
    (orderNotSelfPurchase { db with orders := db.orders ++ [o], next_order_id := n }) = true
  have hfun : orderNotSelfPurchase { db with orders := db.orders ++ [o], next_order_id := n }
      = orderNotSelfPurchase db := rfl
  rw [hfun, List.all_append]
  simp [hinv, ho]

/-- Likewise for the address-ownership invariant. -/
theorem addressesOwnedByBuyer_append (db : DB) (o : Order) (n : Nat)
    (hinv : addressesOwnedByBuyer db = true)
    (ho : orderAddressOwned db o = true) :
    addressesOwnedByBuyer { db with orders := db.orders ++ [o], next_order_id := n } = true := by
  unfold addressesOwnedByBuyer at *
  show (db.orders ++ [o]).all
    (orderAddressOwned { db with orders := db.orders ++ [o], next_order_id := n }) = true
  have hfun : orderAddressOwned { db with orders := db.orders ++ [o], next_order_id := n }
      = orderAddressOwned db := rfl
  rw [hfun, List.all_append]
  simp [hinv, ho]

/-- The committed order is not a self-purchase when the guard let it pass. -/
theorem mkConfirmedOrder_not_self (db : DB) (current : User) (p : Product)
    (a : ShippingAddress) (m : String) (now : Nat) (pid : Nat)
    (hp : productFind db pid = some p)
    (hns : (current.id == p.seller_id) = false) :
    orderNotSelfPurchase db (mkConfirmedOrder db current p a m now) = true := by
  have hp' : productFind db p.id = some p := by rw [productFind_eq_id hp]; exact hp
  have hns' : current.id ≠ p.seller_id := by simpa using hns
  unfold orderNotSelfPurchase mkConfirmedOrder
  simp [hp', hns']

/-- The committed order's address belongs to its buyer when the guard let
it pass. -/
theorem mkConfirmedOrder_address_owned (db : DB) (current : User) (p : Product)
    (a : ShippingAddress) (m : String) (now : Nat) (aid : Nat)
    (ha : addressFind db aid = some a)
    (hown : a.user_id = current.id) :
    orderAddressOwned db (mkConfirmedOrder db current p a m now) = true := by
  have ha' : addressFind db a.id = some a := by rw [addressFind_eq_id ha]; exact ha
  unfold orderAddressOwned mkConfirmedOrder
  simp [ha', hown]

/-- Fixture: a seller account. -/
def exSeller : User :=
  { id := 1, username := "s1", email := "s1@example.com"
    password_hash := "h1", role := "seller" }

/-- Fixture: a buyer account distinct from the seller. -/
def exBuyer : User :=
  { id := 2, username := "b1", email := "b1@example.com"
    password_hash := "h2", role := "buyer" }

/-- Fixture: a second buyer, owner of no address in the store. -/
def exBuyer2 : User :=
  { id := 3, username := "b2", email := "b2@example.com"
    password_hash := "h3", role := "buyer" }

/-- Fixture: a product listed by the seller. -/
def exProduct : Product :=
  { id := 1, name := "camera", description := "desc", specifications := ""
    condition := "全新", price := 100, image_filename := "default.jpg"
    seller_id := 1 }

/-- Fixture: an address owned by `exBuyer`. -/
def exAddr : ShippingAddress :=
  { id := 1, user_id := 2, recipient_name := "r", phone_number := "0900"
    address_line1 := "line1", address_line2 := "", city := "Taipei"
    state := "TW", zip_code := "100", country := "Taiwan" }

/-- Fixture: a store holding the seller, the buyer, one product, one
address and no orders. -/
def exDB : DB :=
  { users := [exSeller, exBuyer], products := [exProduct], addresses := [exAddr]
    orders := [], next_user_id := 3, next_product_id := 2, next_order_id := 1 }

/-- **C1.** For every persisted Order `o`, `o.buyer_id ≠
o.product.seller_id`: a confirm-order request in which the acting buyer's
id equals the product's seller id is denied (flash + redirect home) and
never creates an Order record, and `confirm_order` preserves the
no-self-purchase invariant of the whole store. -/
theorem confirm_order_denies_self_purchase
    (db : DB) (current : User) (pid aid : Nat) (submitted : Bool) (m : String) (now : Nat) :
    (∀ p, productFind db pid = some p → current.id = p.seller_id →
      ((confirmOrder db current pid aid submitted m now).2 = db ∧
        ∀ a, addressFind db aid = some a →
          confirmOrder db current pid aid submitted m now = (ConfirmOutcome.denyHome, db))) ∧
    (noSelfPurchase db = true →
      noSelfPurchase (confirmOrder db current pid aid submitted m now).2 = true) := by
  constructor
  · intro p hp hself
    constructor
    · rcases confirmOrder_cases db current pid aid submitted m now with h | ⟨p', a, hp', ha, h1, h2, heq⟩
      · exact h
      · rw [hp] at hp'
        cases Option.some.inj hp'
        rw [Bool.or_eq_false_iff] at h1
        exact absurd hself (by simpa using h1.2)
    · intro a ha
      exact confirmOrder_deny_home_eq db current pid aid submitted m now p a hp ha
        (by simp [hself])
  · intro hinv
    rcases confirmOrder_cases db current pid aid submitted m now with h | ⟨p, a, hp, ha, h1, h2, heq⟩
    · rw [h]; exact hinv
    · rw [Bool.or_eq_false_iff] at h1
      rw [heq]
      exact noSelfPurchase_append db _ _ hinv
        (mkConfirmedOrder_not_self db current p a m now pid hp h1.2)

/-- Witness for C1: the seller of the fixture product attempts to confirm
an order on their own listing and is denied with the store untouched. -/
theorem confirm_order_denies_self_purchase_witness :
    confirmOrder exDB exSeller 1 1 true "宅配" 7 = (ConfirmOutcome.denyHome, exDB) := by
  have h := (confirm_order_denies_self_purchase exDB exSeller 1 1 true "宅配" 7).1
    exProduct rfl rfl
  exact h.2 exAddr rfl

/-- **C2.** For every persisted Order `o`, `o.shipping_address.user_id =
o.buyer_id`: naming a shipping address whose owner differs from the acting
buyer fails (flash + redirect back to the address-selection step for that
product) and creates no Order, and `confirm_order` preserves the
address-ownership invariant of the whole store. -/
theorem confirm_order_denies_foreign_address
    (db : DB) (current : User) (pid aid : Nat) (submitted : Bool) (m : String) (now : Nat) :
    (∀ p a, productFind db pid = some p → addressFind db aid = some a →
      a.user_id ≠ current.id →
      ((confirmOrder db current pid aid submitted m now).2 = db ∧
        (current.role = "buyer" → current.id ≠ p.seller_id →
          confirmOrder db current pid aid submitted m now =
            (ConfirmOutcome.denyAddress p.id, db)))) ∧
    (addressesOwnedByBuyer db = true →
      addressesOwnedByBuyer (confirmOrder db current pid aid submitted m now).2 = true) := by
  constructor
  · intro p a hp ha hforeign
    constructor
    · rcases confirmOrder_cases db current pid aid submitted m now with h | ⟨p', a', hp', ha', h1, h2, heq⟩
      · exact h
      · rw [ha] at ha'
        cases Option.some.inj ha'
        exact absurd h2 hforeign
    · intro hrole hns
      exact confirmOrder_deny_address_eq db current pid aid submitted m now p a hp ha
        (by simp [hrole, hns]) hforeign
  · intro hinv
    rcases confirmOrder_cases db current pid aid submitted m now with h | ⟨p, a, hp, ha, h1, h2, heq⟩
    · rw [h]; exact hinv
    · rw [heq]
      exact addressesOwnedByBuyer_append db _ _ hinv
        (mkConfirmedOrder_address_owned db current p a m now aid ha h2)

/-- Witness for C2: a second buyer names the first buyer's address and is
sent back to the address-selection step, the store untouched. -/
theorem confirm_order_denies_foreign_address_witness :
    confirmOrder exDB exBuyer2 1 1 true "宅配" 7 = (ConfirmOutcome.denyAddress 1, exDB) := by
  have h := (confirm_order_denies_foreign_address exDB exBuyer2 1 1 true "宅配" 7).1
    exProduct exAddr rfl rfl (by decide)
  exact h.2 rfl (by decide)

/-- **C3.** A successful `confirm_order(buyer, product, address, method)`
creates exactly one Order whose `total_price` is the product's price read
at confirmation time, whose `status` is `"pending"` (the column default),
whose `shipping_method` is the submitted one, and whose
product/buyer/address bindings are the given ones. -/
theorem confirm_order_success_creates_pending_snapshot
    (db : DB) (current : User) (pid aid : Nat) (m : String) (now : Nat)
    (p : Product) (a : ShippingAddress)
    (hp : productFind db pid = some p) (ha : addressFind db aid = some a)
    (hrole : current.role = "buyer") (hns : current.id ≠ p.seller_id)
    (hown : a.user_id = current.id) (hm : orderFormValidate m = true) :
    confirmOrder db current pid aid true m now =
      (ConfirmOutcome.created,
        { db with
            orders := db.orders ++
              [{ id := db.next_order_id
                 product_id := p.id
                 buyer_id := current.id
                 order_date := now
                 status := "pending"
                 shipping_method := m
                 shipping_address_id := a.id
                 total_price := p.price }]
            next_order_id := db.next_order_id + 1 }) :=
  confirmOrder_success_eq db current pid aid m now p a hp ha hrole hns hown hm

/-- Witness for C3: the fixture buyer confirms the fixture product with
their own address and method 宅配; the single committed order is spelled
out. -/
theorem confirm_order_success_creates_pending_snapshot_witness :
    confirmOrder exDB exBuyer 1 1 true "宅配" 7 =
      (ConfirmOutcome.created,
        { exDB with
            orders := [{ id := 1, product_id := 1, buyer_id := 2, order_date := 7
                         status := "pending", shipping_method := "宅配"
                         shipping_address_id := 1, total_price := 100 }]
            next_order_id := 2 }) := by
  have h := confirm_order_success_creates_pending_snapshot exDB exBuyer 1 1 "宅配" 7
    exProduct exAddr rfl rfl rfl (by decide) rfl (by decide)
  simpa [exDB, exProduct, exAddr, exBuyer] using h

/-- Fixture: the empty store. -/
def exDB0 : DB :=
  { users := [], products := [], addresses := [], orders := []
    next_user_id := 1, next_product_id := 1, next_order_id := 1 }

/-- **C4 (refuted — code bug).** The claim says every User created through
the system has role in the closed set {buyer, seller}; but `register` takes
`request.form.get('role', 'buyer')` and stores it without validation, so a
POST carrying `role=admin` commits a user whose role is `"admin"`, outside
the set the `User.role` column comment (`'buyer' or 'seller'`) documents. -/
theorem register_stores_unvalidated_role :
    (register exDB0 "mallory" "mallory@example.com" "pw" (some "admin")).1 =
      RegisterOutcome.created ∧
    (register exDB0 "mallory" "mallory@example.com" "pw" (some "admin")).2.users.map
      User.role = ["admin"] ∧
    ¬ ("admin" = "buyer" ∨ "admin" = "seller") :=
  ⟨rfl, rfl, by decide⟩

/-- **C5.** Confirming twice with identical (buyer, product, address,
shippingMethod), both times satisfying the preconditions, appends two
distinct Order rows with distinct autoincremented ids and equal
`total_price` snapshots; nothing is deduplicated. -/
theorem confirm_order_twice_two_distinct_orders
    (db : DB) (current : User) (pid aid : Nat) (m : String) (now₁ now₂ : Nat)
    (p : Product) (a : ShippingAddress)
    (hp : productFind db pid = some p) (ha : addressFind db aid = some a)
    (hrole : current.role = "buyer") (hns : current.id ≠ p.seller_id)
    (hown : a.user_id = current.id) (hm : orderFormValidate m = true) :
    ∃ o₁ o₂ : Order,
      (confirmOrder (confirmOrder db current pid aid true m now₁).2
          current pid aid true m now₂).2.orders = db.orders ++ [o₁, o₂] ∧
      o₁.id ≠ o₂.id ∧ o₁.total_price = o₂.total_price := by
  have h1 := confirmOrder_success_eq db current pid aid m now₁ p a hp ha hrole hns hown hm
  set db₁ : DB :=
    { db with
        orders := db.orders ++ [mkConfirmedOrder db current p a m now₁]
        next_order_id := db.next_order_id + 1 } with hdb₁
  have hp₁ : productFind db₁ pid = some p := hp
  have ha₁ : addressFind db₁ aid = some a := ha
  have h2 := confirmOrder_success_eq db₁ current pid aid m now₂ p a hp₁ ha₁ hrole hns hown hm
  refine ⟨mkConfirmedOrder db current p a m now₁, mkConfirmedOrder db₁ current p a m now₂,
    ?_, ?_, rfl⟩
  · have hsnd : (confirmOrder db current pid aid true m now₁).2 = db₁ := by rw [h1]
    rw [hsnd, h2]
    show (db.orders ++ [mkConfirmedOrder db current p a m now₁]) ++
        [mkConfirmedOrder db₁ current p a m now₂] =
      db.orders ++ [mkConfirmedOrder db current p a m now₁,
        mkConfirmedOrder db₁ current p a m now₂]
    simp
  · show db.next_order_id ≠ db.next_order_id + 1
    omega

/-- Witness for C5: the fixture buyer confirms the same purchase twice;
the store ends with two distinct orders of equal snapshot price. -/
theorem confirm_order_twice_two_distinct_orders_witness :
    ∃ o₁ o₂ : Order,
      (confirmOrder (confirmOrder exDB exBuyer 1 1 true "宅配" 7).2
          exBuyer 1 1 true "宅配" 9).2.orders = exDB.orders ++ [o₁, o₂] ∧
      o₁.id ≠ o₂.id ∧ o₁.total_price = o₂.total_price :=
  confirm_order_twice_two_distinct_orders exDB exBuyer 1 1 "宅配" 7 9
    exProduct exAddr rfl rfl rfl (by decide) rfl (by decide)

/-- **C9.** Registering with a username that already exists is rejected:
the handler returns to the registration page and the store — every
existing user's row included — is exactly what it was. -/
theorem register_duplicate_username_rejected
    (db : DB) (username email password : String) (role : Option String)
    (u : User) (hu : userFindByUsername db username = some u) :
    register db username email password role = (RegisterOutcome.usernameTaken, db) := by
  unfold register
  simp [hu]

/-- Witness for C9: registering a second "s1" against the fixture store is
rejected and the store is unchanged. -/
theorem register_duplicate_username_rejected_witness :
    register exDB "s1" "fresh@example.com" "pw" (some "buyer") =
      (RegisterOutcome.usernameTaken, exDB) :=
  register_duplicate_username_rejected exDB "s1" "fresh@example.com" "pw"
    (some "buyer") exSeller rfl

/-- **C6.** `my_orders` for a buyer returns exactly the orders whose
`buyer_id` is the buyer's (a permutation of the filter), sorted by
`order_date` descending; for two returned orders with distinct dates the
later one appears first. -/
theorem my_orders_exact_sorted_desc
    (db : DB) (current : User) (hrole : current.role = "buyer") :
    ∃ l, myOrders db current = OrdersOutcome.page l ∧
      l.Perm (db.orders.filter (fun o => o.buyer_id == current.id)) ∧
      List.Pairwise (fun a b => b.order_date ≤ a.order_date ∧
        (b.order_date ≠ a.order_date → b.order_date < a.order_date)) l := by
  refine ⟨(db.orders.filter (fun o => o.buyer_id == current.id)).mergeSort orderDateDesc,
    ?_, ?_, ?_⟩
  · unfold myOrders
    simp [hrole]
  · exact List.mergeSort_perm _ _
  · have htrans : ∀ a b c : Order, orderDateDesc a b = true → orderDateDesc b c = true →
        orderDateDesc a c = true := by
      intro a b c hab hbc
      unfold orderDateDesc at hab hbc ⊢
      simp only [decide_eq_true_eq] at hab hbc ⊢
      omega
    have htotal : ∀ a b : Order, (orderDateDesc a b || orderDateDesc b a) = true := by
      intro a b
      unfold orderDateDesc
      simp only [Bool.or_eq_true, decide_eq_true_eq]
      omega
    have h := List.sorted_mergeSort htrans htotal
      (db.orders.filter (fun o => o.buyer_id == current.id))
    apply h.imp
    intro a b hab
    unfold orderDateDesc at hab
    simp only [decide_eq_true_eq] at hab
    exact ⟨hab, fun hne => lt_of_le_of_ne hab hne⟩

/-- Fixture: an earlier order of the fixture buyer. -/
def exOrder1 : Order :=
  { id := 1, product_id := 1, buyer_id := 2, order_date := 5, status := "pending"
    shipping_method := "宅配", shipping_address_id := 1, total_price := 100 }

/-- Fixture: a later order of the fixture buyer. -/
def exOrder2 : Order :=
  { id := 2, product_id := 1, buyer_id := 2, order_date := 9, status := "pending"
    shipping_method := "郵寄", shipping_address_id := 1, total_price := 100 }

/-- Fixture: the store with both fixture orders persisted. -/
def exDB6 : DB :=
  { users := [exSeller, exBuyer], products := [exProduct], addresses := [exAddr]
    orders := [exOrder1, exOrder2], next_user_id := 3, next_product_id := 2
    next_order_id := 3 }

/-- Witness for C6: the fixture buyer's order page on a store holding an
earlier and a later order. -/
theorem my_orders_exact_sorted_desc_witness :
    ∃ l, myOrders exDB6 exBuyer = OrdersOutcome.page l ∧
      l.Perm (exDB6.orders.filter (fun o => o.buyer_id == exBuyer.id)) ∧
      List.Pairwise (fun a b => b.order_date ≤ a.order_date ∧
        (b.order_date ≠ a.order_date → b.order_date < a.order_date)) l :=
  my_orders_exact_sorted_desc exDB6 exBuyer rfl

/-- A validated product form's price is positive (`NumberRange(min=0.01)`). -/
theorem productFormValidate_price_pos {f : ProductFormData}
    (h : productFormValidate f = true) : 0 < f.price := by
  unfold productFormValidate at h
  simp only [Bool.and_eq_true, decide_eq_true_eq] at h
  have hpr : mkRat 1 100 ≤ f.price := h.1.2
  have h0 : (0 : Rat) < mkRat 1 100 := by decide
  linarith

/-- A product form with non-positive price never validates. -/
theorem productFormValidate_nonpos {f : ProductFormData} (h : f.price ≤ 0) :
    productFormValidate f = false := by
  have hd : decide (mkRat 1 100 ≤ f.price) = false := by
    simp only [decide_eq_false_iff_not]
    intro hle
    have h0 : (0 : Rat) < mkRat 1 100 := by decide
    linarith
  unfold productFormValidate
  rw [hd]
  simp

/-- Rewriting the one row whose key matched keeps the lookup pointed at the
rewritten row, provided the rewrite preserves the key. -/
theorem find?_map_ite {ps : List Product} {pid : Nat} {p u : Product}
    (h : ps.find? (fun q => q.id == pid) = some p) (hid : u.id = pid) :
    (ps.map (fun q => if q.id == pid then u else q)).find? (fun q => q.id == pid)
      = some u := by
  induction ps with
  | nil => simp at h
  | cons x xs ih =>
    rw [List.map_cons]
    by_cases hx : (x.id == pid) = true
    · have hhead : (if x.id == pid then u else x) = u := if_pos hx
      rw [hhead]
      have hu : (u.id == pid) = true := by simp [hid]
      simp [List.find?_cons, hu]
    · have hx' : (x.id == pid) = false := eq_false_of_ne_true hx
      have hhead : (if x.id == pid then u else x) = x := if_neg hx
      rw [hhead]
      simp only [List.find?_cons, hx'] at h ⊢
      exact ih h

/-- The row `update_product`'s success branch writes back: name,
description, specifications, condition and price from the form; the image
filename only when a new file was uploaded; everything else kept. -/
def updatedProduct (p : Product) (f : ProductFormData) (hex : String) : Product :=
  { p with
      name := f.name
      description := f.description
      specifications := f.specifications
      condition := f.condition
      price := f.price
      image_filename :=
        match f.image with
        | none => p.image_filename
        | some img => hex ++ splitextExt img }

/-- The upload folder after `update_product`'s success branch: untouched
without a new file; otherwise the old non-placeholder picture removed and
the new one saved. -/
def updatedFs (fs : List String) (p : Product) (f : ProductFormData) (hex : String) :
    List String :=
  match f.image with
  | none => fs
  | some img =>
    (if p.image_filename != "default.jpg" then fsRemove fs p.image_filename else fs)
      ++ [hex ++ splitextExt img]

/-- `update_product` either changes nothing (404, foreign seller, GET or
invalid form) or commits exactly the success-branch rewrite. -/
theorem updateProduct_cases (db : DB) (fs : List String) (current : User) (pid : Nat)
    (submitted : Bool) (f : ProductFormData) (hex : String) :
    ((updateProduct db fs current pid submitted f hex).1 ≠ ProductOutcome.success ∧
     (updateProduct db fs current pid submitted f hex).2.1 = db ∧
     (updateProduct db fs current pid submitted f hex).2.2 = fs) ∨
    ∃ p, productFind db pid = some p ∧ p.seller_id = current.id ∧
      submitted = true ∧ productFormValidate f = true ∧
      updateProduct db fs current pid submitted f hex =
        (ProductOutcome.success,
         { db with products :=
             db.products.map (fun q => if q.id == pid then updatedProduct p f hex else q) },
         updatedFs fs p f hex) := by
  unfold updateProduct
  cases hp : productFind db pid with
  | none => left; exact ⟨by simp, rfl, rfl⟩
  | some p =>
    by_cases h1 : (p.seller_id != current.id) = true
    · left; simp [h1]
    · have h1' := eq_false_of_ne_true h1
      have hown : p.seller_id = current.id := by simpa using h1'
      by_cases h2 : (submitted && productFormValidate f) = true
      · right
        rw [Bool.and_eq_true] at h2
        refine ⟨p, rfl, hown, h2.1, h2.2, ?_⟩
        have h2' : (submitted && productFormValidate f) = true := by
          rw [h2.1, h2.2]; rfl
        cases himg : f.image with
        | none =>
          simp only [h1', h2', Bool.false_eq_true, if_false, if_true, himg]
          simp [updatedProduct, updatedFs, himg]
        | some img =>
          simp only [h1', h2', Bool.false_eq_true, if_false, if_true, himg]
          simp [updatedProduct, updatedFs, savePicture, himg]
      · left
        have h2' := eq_false_of_ne_true h2
        simp [h1', h2']

/-- **C7.** Price positivity at the store boundary: a successful create
appends a product with the validated (hence positive) price; a successful
update leaves the looked-up row with the validated positive price; and a
submission with `price ≤ 0` fails validation, leaving the store — in the
update case the stored price — unchanged. -/
theorem product_price_positive_enforced
    (db : DB) (fs : List String) (current : User) (pid : Nat)
    (submitted : Bool) (f : ProductFormData) (hex : String) :
    ((createProduct db fs current submitted f hex).1 = ProductOutcome.success →
      ∃ pr, (createProduct db fs current submitted f hex).2.1.products
          = db.products ++ [pr] ∧ pr.price = f.price ∧ 0 < pr.price) ∧
    ((updateProduct db fs current pid submitted f hex).1 = ProductOutcome.success →
      ∃ pr, productFind (updateProduct db fs current pid submitted f hex).2.1 pid
          = some pr ∧ pr.price = f.price ∧ 0 < pr.price) ∧
    (f.price ≤ 0 →
      (createProduct db fs current submitted f hex).2.1 = db ∧
      (updateProduct db fs current pid submitted f hex).2.1 = db) := by
  refine ⟨?_, ?_, ?_⟩
  · intro hs
    unfold createProduct at hs ⊢
    by_cases h1 : (current.role != "seller") = true
    · simp [h1] at hs
    · have h1' := eq_false_of_ne_true h1
      by_cases h2 : (submitted && productFormValidate f) = true
      · have hv : productFormValidate f = true := by
          rw [Bool.and_eq_true] at h2; exact h2.2
        simp only [h1', h2, Bool.false_eq_true, if_false, if_true]
        exact ⟨_, rfl, rfl, productFormValidate_price_pos hv⟩
      · have h2' := eq_false_of_ne_true h2
        simp [h1', h2'] at hs
  · intro hs
    rcases updateProduct_cases db fs current pid submitted f hex with
      ⟨hne, -, -⟩ | ⟨p, hp, -, -, hv, heq⟩
    · exact absurd hs hne
    · rw [heq]
      refine ⟨updatedProduct p f hex, ?_, rfl, productFormValidate_price_pos hv⟩
      show (db.products.map
          (fun q => if q.id == pid then updatedProduct p f hex else q)).find?
          (fun q => q.id == pid) = some (updatedProduct p f hex)
      have hid0 : p.id = pid := productFind_eq_id hp
      have hid : (updatedProduct p f hex).id = pid := hid0
      exact find?_map_ite hp hid
  · intro hneg
    have hvf := productFormValidate_nonpos hneg
    constructor
    · unfold createProduct
      by_cases h1 : (current.role != "seller") = true
      · simp [h1]
      · simp [eq_false_of_ne_true h1, hvf]
    · rcases updateProduct_cases db fs current pid submitted f hex with
        ⟨-, hdb, -⟩ | ⟨p, -, -, -, hv, -⟩
      · exact hdb
      · rw [hv] at hvf; cases hvf

/-- Fixture: a valid product form with price 50 and no image. -/
def exForm : ProductFormData :=
  { name := "lens", description := "desc", specifications := ""
    condition := "全新", price := 50, image := none }

/-- Fixture: the same form with price 0 (rejected by `NumberRange`). -/
def exBadForm : ProductFormData :=
  { name := "lens", description := "desc", specifications := ""
    condition := "全新", price := 0, image := none }

/-- Witness for C7: the fixture seller creates with price 50 (a positive
row is appended) and then submits an update with price 0 against product 1
(the store is unchanged). -/
theorem product_price_positive_enforced_witness :
    (∃ pr, (createProduct exDB [] exSeller true exForm "abc").2.1.products
        = exDB.products ++ [pr] ∧ pr.price = exForm.price ∧ 0 < pr.price) ∧
    (updateProduct exDB [] exSeller 1 true exBadForm "abc").2.1 = exDB := by
  constructor
  · exact (product_price_positive_enforced exDB [] exSeller 1 true exForm "abc").1
      (by decide)
  · exact ((product_price_positive_enforced exDB [] exSeller 1 true exBadForm "abc").2.2
      (by decide)).2

/-- Membership after `os.remove`: everything but the removed name. -/
theorem mem_fsRemove {fs : List String} {a b : String} :
    a ∈ fsRemove fs b ↔ a ∈ fs ∧ a ≠ b := by
  unfold fsRemove
  simp [List.mem_filter]

/-- **C8.** An owning seller's delete succeeds, and the stored image file
is removed exactly when it is not the `default.jpg` placeholder: with the
file present beforehand, it is gone afterwards iff it is not the
placeholder; a placeholder image leaves the folder untouched; files with
other names survive. -/
theorem delete_product_image_iff_not_default
    (db : DB) (fs : List String) (current : User) (pid : Nat) (p : Product)
    (hp : productFind db pid = some p) (hown : p.seller_id = current.id) :
    (deleteProduct db fs current pid).1 = ProductOutcome.success ∧
    (p.image_filename ∈ fs →
      (p.image_filename ∉ (deleteProduct db fs current pid).2.2 ↔
        p.image_filename ≠ "default.jpg")) ∧
    (p.image_filename = "default.jpg" → (deleteProduct db fs current pid).2.2 = fs) ∧
    (∀ g ∈ fs, g ≠ p.image_filename → g ∈ (deleteProduct db fs current pid).2.2) := by
  have h1 : (p.seller_id != current.id) = false := by simp [hown]
  have heq : deleteProduct db fs current pid =
      (ProductOutcome.success,
       { db with products := db.products.filter (fun q => q.id != pid) },
       if p.image_filename != "default.jpg" then fsRemove fs p.image_filename else fs) := by
    unfold deleteProduct
    simp [hp, h1]
  rw [heq]
  by_cases hdef : p.image_filename = "default.jpg"
  · have hfs : (if p.image_filename != "default.jpg" then
        fsRemove fs p.image_filename else fs) = fs := by simp [hdef]
    refine ⟨rfl, ?_, fun _ => by simp only [hfs], fun g hg _ => by simp only [hfs]; exact hg⟩
    intro hin
    simp only [hfs]
    exact ⟨fun hnot => absurd hin hnot, fun hne => absurd hdef hne⟩
  · have hfs : (if p.image_filename != "default.jpg" then
        fsRemove fs p.image_filename else fs) = fsRemove fs p.image_filename := by
      simp [hdef]
    refine ⟨rfl, ?_, fun h => absurd h hdef,
      fun g hg hne => by simp only [hfs]; exact mem_fsRemove.mpr ⟨hg, hne⟩⟩
    intro hin
    simp only [hfs]
    refine ⟨fun _ => hdef, fun _ hmem => ?_⟩
    exact (mem_fsRemove.mp hmem).2 rfl

/-- Fixture: a product of the fixture seller with a non-placeholder image. -/
def exProduct8 : Product :=
  { id := 5, name := "tripod", description := "desc", specifications := ""
    condition := "二手", price := 30, image_filename := "img1.jpg", seller_id := 1 }

/-- Fixture: the store with both fixture products listed. -/
def exDB8 : DB :=
  { users := [exSeller, exBuyer], products := [exProduct, exProduct8]
    addresses := [exAddr], orders := [], next_user_id := 3, next_product_id := 6
    next_order_id := 1 }

/-- Witness for C8: deleting product 5 (`img1.jpg`) from a folder holding
`img1.jpg` and `other.png`. -/
theorem delete_product_image_iff_not_default_witness :
    (deleteProduct exDB8 ["img1.jpg", "other.png"] exSeller 5).1
      = ProductOutcome.success ∧
    (exProduct8.image_filename ∈ ["img1.jpg", "other.png"] →
      (exProduct8.image_filename ∉
          (deleteProduct exDB8 ["img1.jpg", "other.png"] exSeller 5).2.2 ↔
        exProduct8.image_filename ≠ "default.jpg")) ∧
    (exProduct8.image_filename = "default.jpg" →
      (deleteProduct exDB8 ["img1.jpg", "other.png"] exSeller 5).2.2
        = ["img1.jpg", "other.png"]) ∧
    (∀ g ∈ ["img1.jpg", "other.png"], g ≠ exProduct8.image_filename →
      g ∈ (deleteProduct exDB8 ["img1.jpg", "other.png"] exSeller 5).2.2) :=
  delete_product_image_iff_not_default exDB8 ["img1.jpg", "other.png"] exSeller 5
    exProduct8 rfl rfl

/-- The success branch of `update_product`, in closed form. -/
theorem updateProduct_success_eq (db : DB) (fs : List String) (current : User)
    (pid : Nat) (f : ProductFormData) (hex : String) (p : Product)
    (hp : productFind db pid = some p) (hown : p.seller_id = current.id)
    (hv : productFormValidate f = true) :
    updateProduct db fs current pid true f hex =
      (ProductOutcome.success,
       { db with products :=
           db.products.map (fun q => if q.id == pid then updatedProduct p f hex else q) },
       updatedFs fs p f hex) := by
  have h1 : (p.seller_id != current.id) = false := by simp [hown]
  have h2 : (true && productFormValidate f) = true := by simp [hv]
  unfold updateProduct
  cases himg : f.image with
  | none =>
    simp only [hp, h1, h2, Bool.false_eq_true, if_false, if_true, himg]
    simp [updatedProduct, updatedFs, himg]
  | some img =>
    simp only [hp, h1, h2, Bool.false_eq_true, if_false, if_true, himg]
    simp [updatedProduct, updatedFs, savePicture, himg]

/-- **C10.** A successful update rewrites only name, description,
specifications, condition and price of the one matched row; its id and
seller_id are unchanged, its image filename is unchanged when no new file
was uploaded (and then the upload folder too); the other tables are
untouched. -/
theorem update_product_frame
    (db : DB) (fs : List String) (current : User) (pid : Nat)
    (f : ProductFormData) (hex : String) (p : Product)
    (hp : productFind db pid = some p) (hown : p.seller_id = current.id)
    (hv : productFormValidate f = true) :
    ∃ p', (updateProduct db fs current pid true f hex).1 = ProductOutcome.success ∧
      (updateProduct db fs current pid true f hex).2.1.products =
        db.products.map (fun q => if q.id == pid then p' else q) ∧
      p'.id = p.id ∧ p'.seller_id = p.seller_id ∧
      p'.name = f.name ∧ p'.description = f.description ∧
      p'.specifications = f.specifications ∧ p'.condition = f.condition ∧
      p'.price = f.price ∧
      (f.image = none → p'.image_filename = p.image_filename) ∧
      (updateProduct db fs current pid true f hex).2.1.users = db.users ∧
      (updateProduct db fs current pid true f hex).2.1.addresses = db.addresses ∧
      (updateProduct db fs current pid true f hex).2.1.orders = db.orders ∧
      (f.image = none → (updateProduct db fs current pid true f hex).2.2 = fs) := by
  have heq := updateProduct_success_eq db fs current pid f hex p hp hown hv
  rw [heq]
  exact ⟨updatedProduct p f hex, rfl, rfl, rfl, rfl, rfl, rfl, rfl, rfl, rfl,
    fun h => by simp [updatedProduct, h], rfl, rfl, rfl,
    fun h => by simp [updatedFs, h]⟩

/-- Witness for C10: the fixture seller updates product 1 with the valid
imageless form. -/
theorem update_product_frame_witness :
    ∃ p', (updateProduct exDB [] exSeller 1 true exForm "abc").1
        = ProductOutcome.success ∧
      (updateProduct exDB [] exSeller 1 true exForm "abc").2.1.products =
        exDB.products.map (fun q => if q.id == 1 then p' else q) ∧
      p'.id = exProduct.id ∧ p'.seller_id = exProduct.seller_id ∧
      p'.name = exForm.name ∧ p'.description = exForm.description ∧
      p'.specifications = exForm.specifications ∧ p'.condition = exForm.condition ∧
      p'.price = exForm.price ∧
      (exForm.image = none → p'.image_filename = exProduct.image_filename) ∧
      (updateProduct exDB [] exSeller 1 true exForm "abc").2.1.users = exDB.users ∧
      (updateProduct exDB [] exSeller 1 true exForm "abc").2.1.addresses
        = exDB.addresses ∧
      (updateProduct exDB [] exSeller 1 true exForm "abc").2.1.orders = exDB.orders ∧
      (exForm.image = none →
        (updateProduct exDB [] exSeller 1 true exForm "abc").2.2 = []) :=
  update_product_frame exDB [] exSeller 1 exForm "abc" exProduct rfl rfl (by decide)
